import Mathlib

/-!
Verification of the war_record repository's data-loading and filtering
logic (a Streamlit app: `card_tracker.py` and the player-search page
`pages/01_選手データ検索.py`).

The pandas dataframes are embedded shallowly: a table is an ordered list
of column names plus an ordered list of rows, each row an ordered list of
cell values.  A cell is a string, an integer, a coerced date, or missing
(pandas NaN).  All operations below are translated directly from the
dataframe expressions in the two source files; external services
(Google Sheets fetch, credentials) are modelled as explicit inputs to the
loader functions.
-/

namespace WarRecord

/-- A scalar cell value of a loaded sheet: a string, a number, a value
already coerced to a date (payload is an integer date key), or missing
(pandas `NaN`/`NaT`).  Floating-point cells are out of the model; integer
numbers stand in for the numeric cells. -/
inductive Value where
  | str : String → Value
  | num : Int → Value
  | date : Int → Value
  | missing : Value
deriving DecidableEq, Repr

/-- A loaded dataframe: ordered column names and ordered rows.  Each row
lists its cells in column order. -/
structure Table where
  cols : List String
  rows : List (List Value)
deriving DecidableEq, Repr

/-- `pd.DataFrame()` — the empty table returned on every loader failure. -/
def emptyTable : Table := ⟨[], []⟩

/-- The string representation pandas produces for a cell under
`.astype(str)`: strings unchanged, numbers printed, and — crucially —
a missing value (`NaN`) printed as the string "nan". -/
def valueStr : Value → String
  | .str s => s
  | .num n => toString n
  | .date k => toString k
  | .missing => "nan"

/-- Cell lookup by column name: the value of row `r` in column `c`, with
`missing` as the default when the column is absent (mirrors that pandas
operations on an absent column are guarded in the source). -/
def getCell (cols : List String) (r : List Value) (c : String) : Value :=
  match cols.findIdx? (fun x => x = c) with
  | some i => r.getD i Value.missing
  | none => Value.missing

/-- `df[c]` — the column `c` of table `t` as a list of values, one per row. -/
def colValues (t : Table) (c : String) : List Value :=
  t.rows.map (fun r => getCell t.cols r c)

/-- ASCII lower-casing of a character list.  `case=False` makes
`str.contains` match under `re.IGNORECASE`, which case-folds full Unicode;
ASCII folding coincides with it only on ASCII text, so every statement
built on it below is scoped to ASCII keywords and cells (see `asciiChar`,
`plainKeyword`, `asciiTable`). -/
def toLowerChars (l : List Char) : List Char := l.map Char.toLower

/-- The metacharacters of Python regular expressions.  `str.contains`
defaults to `regex=True`, so a keyword containing one of these is not
matched literally: the keyword "a.c" matches the cell "abc", and the
keyword "(" raises `re.error` inside the apply.  A keyword free of them is
matched by `re.search` exactly as a literal substring. -/
def regexMetaChars : List Char :=
  ['.', '^', '$', '*', '+', '?', '[', ']', '\\', '|', '(', ')',
   Char.ofNat 123, Char.ofNat 125]

/-- An ASCII character: on ASCII text the Unicode case folding of
`re.IGNORECASE` coincides with ASCII lower-casing. -/
def asciiChar (c : Char) : Bool := c.toNat < 128

/-- The keyword class on which the program's `str.contains(term,
case=False, na=False)` behaves as literal case-insensitive substring
search: every character is ASCII and none is a regex metacharacter. -/
def plainKeyword (s : String) : Bool :=
  s.data.all (fun c => asciiChar c && !(regexMetaChars.contains c))

/-- A table all of whose cell string representations are ASCII, so that
ASCII case folding agrees with the regex engine's Unicode folding on the
haystack side as well. -/
def asciiTable (t : Table) : Bool :=
  t.rows.all (fun r => r.all (fun v => (valueStr v).data.all asciiChar))

/-- `charsPre pat l` — `pat` is a leading segment of `l`. -/
def charsPre : List Char → List Char → Bool
  | [], _ => true
  | _ :: _, [] => false
  | a :: pat, b :: l => a == b && charsPre pat l

/-- `charsSub pat l` — `pat` occurs contiguously somewhere in `l`. -/
def charsSub (pat : List Char) : List Char → Bool
  | [] => charsPre pat []
  | b :: l => charsPre pat (b :: l) || charsSub pat l

/-- `s.str.contains(pat, case=False)` restricted to the keyword class of
`plainKeyword` over ASCII text: there the default-`regex=True` search
treats `pat` literally and `re.IGNORECASE` folds like ASCII, so the test
is case-insensitive substring containment.  Outside that class the program
diverges from any literal reading (pattern interpretation or `re.error`),
which is why every keyword-mode statement below carries the
`plainKeyword`/`asciiTable` hypotheses. -/
def containsCI (s pat : String) : Bool :=
  charsSub (toLowerChars pat.data) (toLowerChars s.data)

/-- The keyword mask applied per row in the source:
`row.astype(str).str.contains(search_term, case=False, na=False).any()`.
Note that `astype(str)` runs first, so a missing cell is tested as the
literal string "nan" (see `valueStr`) and the `na=False` argument never
sees a missing value. -/
def rowMatches (term : String) (r : List Value) : Bool :=
  r.any (fun v => containsCI (valueStr v) term)

/-- Keyword mode of the player-search page: `if search_term:` guards the
filter, so the empty keyword is the identity; otherwise the rows passing
the keyword mask are kept (`filtered_df = df[mask]`). -/
def keywordFilter (t : Table) (term : String) : Table :=
  if term = "" then t
  else { t with rows := t.rows.filter (rowMatches term) }

/-- `df[col].dropna().unique()` — the distinct non-missing values of column
`c`, used to build the multiselect options in facet mode. -/
def uniqueNonMissing (t : Table) (c : String) : List Value :=
  ((colValues t c).filter (fun v => !(v == Value.missing))).dedup

/-- The guard `len(unique_values) > 0 and len(unique_values) <= 50`
deciding whether column `c` is offered as a multi-select facet. -/
def facetEligible (t : Table) (c : String) : Bool :=
  decide (0 < (uniqueNonMissing t c).length) &&
    decide ((uniqueNonMissing t c).length ≤ 50)

/-- One iteration of the facet loop: if column `c` is eligible (so the
multiselect widget exists) and the user selected at least one value
(`if selected_values:`), keep the rows of the accumulator whose value in
`c`, as a string, is among the selected values
(`filtered_df[filtered_df[col].astype(str).isin(selected_values)]`);
otherwise leave the accumulator unchanged. -/
def facetStep (t : Table) (sel : String → List String) (acc : Table) (c : String) : Table :=
  if facetEligible t c && !(sel c).isEmpty then
    { acc with rows := acc.rows.filter (fun r => (sel c).contains (valueStr (getCell acc.cols r c))) }
  else acc

/-- Facet mode of the player-search page: the loop `for col in df.columns:`
applying `facetStep` successively, starting from `filtered_df = df.copy()`.
`sel c` is the list of values the user selected for column `c` (empty when
the user selected none or the widget does not exist). -/
def facetFilter (t : Table) (sel : String → List String) : Table :=
  t.cols.foldl (facetStep t sel) t

/-- The conjunction of facet constraints over the columns `cs`: row `r`
passes iff for every eligible facet with a non-empty selection, the row's
value as a string is among the selected values. -/
def facetPass (t : Table) (sel : String → List String) (cs : List String) (r : List Value) : Bool :=
  cs.all (fun c =>
    !(facetEligible t c && !(sel c).isEmpty) ||
      (sel c).contains (valueStr (getCell t.cols r c)))

/-! ### Summary Aggregator (`card_tracker.py`, module-level quick stats) -/

/-- The fixed win token compared against the `result` column:
`df[df['result'] == '勝ち']`. -/
def winToken : String := "勝ち"

/-- `len(df)` — total number of match rows. -/
def totalMatches (t : Table) : Nat := t.rows.length

/-- `wins = len(df[df['result'] == '勝ち'])` — rows whose `result` cell
equals the win token. -/
def wins (t : Table) : Nat :=
  (colValues t "result").countP (fun v => v == Value.str winToken)

/-- `win_rate = (wins / len(df) * 100) if len(df) > 0 else 0` — the win
ratio as an exact rational percentage. -/
def winRate (t : Table) : ℚ :=
  if 0 < t.rows.length then (wins t : ℚ) / (t.rows.length : ℚ) * 100 else 0

/-- Renders the percentage `w / n * 100` with one decimal digit, modelling
the Python format `f"{win_rate:.1f}%"` away from representation ties:
the exact value times ten is rounded to the nearest integer (half up, via
`(2000 * w + n) / (2 * n)` in integer arithmetic) and printed as
`whole.tenth`.  `n = 0` yields the `else 0` branch of the source. -/
def fmtPercent (w n : Nat) : String :=
  if n = 0 then "0.0%"
  else
    let k := (2000 * w + n) / (2 * n)
    toString (k / 10) ++ "." ++ toString (k % 10) ++ "%"

/-- `f"{win_rate:.1f}%"` — the rendered win-rate metric. -/
def winRateStr (t : Table) : String := fmtPercent (wins t) (totalMatches t)

/-- `df['season'].dropna().unique()` length — the season-count metric. -/
def seasonCount (t : Table) : Nat := (uniqueNonMissing t "season").length

/-! ### Post-load normalization -/

/-- A row all of whose cells are missing — the rows removed by
`df.dropna(how='all')`. -/
def allMissingRow (r : List Value) : Bool := r.all (fun v => v == Value.missing)

/-- `df.dropna(how='all')` — drop the rows whose cells are all missing. -/
def dropAllMissingRows (t : Table) : Table :=
  { t with rows := t.rows.filter (fun r => !(allMissingRow r)) }

/-- `df.columns.str.contains('^Unnamed')` — the placeholder column names
pandas invents for unnamed sheet columns.  The regex is anchored at the
start, so this is a prefix test. -/
def unnamedCol (c : String) : Bool := "Unnamed".isPrefixOf c

/-- `df.loc[:, keep]` for a column predicate: keep the columns satisfying
`keep` in their original order, and restrict every row to those columns. -/
def selectColsKeep (t : Table) (keep : String → Bool) : Table :=
  { cols := t.cols.filter keep,
    rows := t.rows.map (fun r => ((t.cols.zip r).filter (fun p => keep p.1)).map Prod.snd) }

/-- `load_player_data`'s post-fetch normalization
(`pages/01_選手データ検索.py`, lines 68-74): drop all-missing rows, then
drop the `Unnamed` columns.  No date coercion happens on this path. -/
def normalizePlayer (t : Table) : Table :=
  selectColsKeep (dropAllMissingRows t) (fun c => !(unnamedCol c))

/-- The expected match-record columns of `card_tracker.py` (`COLUMNS`). -/
def COLUMNS : List String :=
  ["season", "date", "environment", "my_deck", "my_deck_type",
   "opponent_deck", "opponent_deck_type", "first_second", "result",
   "finish_turn", "memo"]

/-- `df[needed_cols]` — reindex the table to exactly the columns `cs`,
in that order (values default to missing for absent columns, a case the
source never reaches because `needed_cols` is intersected with
`df.columns`). -/
def reindexCols (t : Table) (cs : List String) : Table :=
  { cols := cs, rows := t.rows.map (fun r => cs.map (getCell t.cols r)) }

/-- Splits a character list at every occurrence of the separator. -/
def splitOnChar (sep : Char) : List Char → List (List Char)
  | [] => [[]]
  | c :: cs =>
    let r := splitOnChar sep cs
    if c == sep then [] :: r
    else
      match r with
      | [] => [[c]]
      | h :: rest => (c :: h) :: rest

/-- Reads a non-empty all-digit character list as a natural number. -/
def digitsToNat? (l : List Char) : Option Nat :=
  if !l.isEmpty && l.all Char.isDigit then
    some (l.foldl (fun n c => n * 10 + (c.toNat - 48)) 0)
  else none

/-- Models the element-level parsing of `pd.to_datetime` on the ISO-like
date strings of the sheet (`YYYY-MM-DD` or `YYYY/MM/DD`), returning an
integer date key; everything else is unparseable. -/
def parseDateKey (s : String) : Option Int :=
  let dash := splitOnChar '-' s.data
  let parts := if dash.length = 3 then dash else splitOnChar '/' s.data
  match parts with
  | [y, m, d] =>
    match digitsToNat? y, digitsToNat? m, digitsToNat? d with
    | some yv, some mv, some dv =>
      if 1 ≤ mv ∧ mv ≤ 12 ∧ 1 ≤ dv ∧ dv ≤ 31 then
        some ((yv : Int) * 10000 + (mv : Int) * 100 + (dv : Int))
      else none
    | _, _, _ => none
  | _ => none

/-- One cell under `pd.to_datetime(_, errors='coerce')`: parseable strings
become dates, unparseable strings become missing (`NaT`), numbers are
interpreted as epoch offsets (kept abstract as their own key), and missing
stays missing.  It never raises. -/
def coerceDateValue : Value → Value
  | .str s =>
    match parseDateKey s with
    | some k => .date k
    | none => .missing
  | .num n => .date n
  | .date k => .date k
  | .missing => .missing

/-- Whether a value is already a coerced date or missing — the only two
shapes `pd.to_datetime(..., errors='coerce')` can leave in a cell. -/
def isDateOrMissing : Value → Bool
  | .date _ => true
  | .missing => true
  | _ => false

/-- `df['date'] = pd.to_datetime(df['date'], errors='coerce')`, guarded by
`if 'date' in df.columns:` — coerce the `date` column in place when it
exists. -/
def coerceDateCol (t : Table) : Table :=
  match t.cols.findIdx? (fun c => c = "date") with
  | some i =>
    { t with rows := t.rows.map (fun r => r.set i (coerceDateValue (r.getD i Value.missing))) }
  | none => t

/-- `load_summary_data`'s post-fetch normalization (`card_tracker.py`,
lines 112-123): return the empty table when the fetch produced an empty
frame, otherwise keep only the expected columns (in `COLUMNS` order) and
coerce the `date` column.  All-missing rows are NOT dropped here, and the
`Unnamed` columns disappear only because they are outside `COLUMNS`. -/
def normalizeSummary (t : Table) : Table :=
  if t.rows.isEmpty || t.cols.isEmpty then emptyTable
  else coerceDateCol (reindexCols t (COLUMNS.filter (fun c => t.cols.contains c)))

/-! ### Remote Table Loaders

The external effects (credential lookup, `gspread` authorization, the
sheet fetch) are modelled as explicit inputs: `sid` is the spreadsheet id
(`none` models the Python `None`), `clientOk` tells whether
`get_gspread_client()` returned a client (it returns `None` on missing or
bad credentials), and `fetch` is the outcome of the `try:` block around
`open_by_key` / `worksheet` / `get_as_dataframe`. -/

/-- Outcome of the guarded fetch: a raw dataframe, or the message of the
exception the `except` clause caught. -/
inductive FetchOutcome where
  | ok : Table → FetchOutcome
  | failed : String → FetchOutcome

/-- `load_player_data` (`pages/01_選手データ検索.py`, lines 52-77):
`if not spreadsheet_id: return pd.DataFrame()`, then the client check,
then the fetch with its `except` returning the empty frame, then the
normalization. -/
def loadPlayerData (sid : Option String) (clientOk : Bool) (fetch : FetchOutcome) : Table :=
  match sid with
  | none => emptyTable
  | some s =>
    if s = "" then emptyTable
    else if !clientOk then emptyTable
    else
      match fetch with
      | .failed _ => emptyTable
      | .ok df => normalizePlayer df

/-- `load_summary_data` (`card_tracker.py`, lines 98-125): same failure
ladder, with its own normalization and a bare `except:` returning the
empty frame. -/
def loadSummaryData (sid : Option String) (clientOk : Bool) (fetch : FetchOutcome) : Table :=
  match sid with
  | none => emptyTable
  | some s =>
    if s = "" then emptyTable
    else if !clientOk then emptyTable
    else
      match fetch with
      | .failed _ => emptyTable
      | .ok df => normalizeSummary df

/-! ### Derived outputs of the search page: statistics and column info -/

/-- `df[c].count()` — the number of non-missing cells of column `c`. -/
def nonMissingCount (t : Table) (c : String) : Nat :=
  ((colValues t c).filter (fun v => !(v == Value.missing))).length

/-- `df[c].nunique()` — the number of distinct non-missing values of
column `c`. -/
def nuniqueCol (t : Table) (c : String) : Nat := (uniqueNonMissing t c).length

/-- The `count` line of `DataFrame.describe()` for the columns `cs` — the
part of the descriptive statistics sufficient to observe which table the
statistics are computed from. -/
def describeCounts (t : Table) (cs : List String) : List (String × Nat) :=
  cs.map (fun c => (c, nonMissingCount t c))

/-- Coarse model of the pandas storage dtype of a column as rendered by
`df.dtypes.astype(str)`: all-numeric-or-missing columns print as
`float64`, all-date-or-missing columns as `datetime64[ns]`, anything
containing a string as `object`. -/
def dtypeOf (vs : List Value) : String :=
  if vs.all (fun v => match v with | .num _ => true | .missing => true | _ => false) then
    "float64"
  else if vs.all (fun v => match v with | .date _ => true | .missing => true | _ => false) then
    "datetime64[ns]"
  else "object"

/-- The column-info table of the search page (lines 220-225): per column
its name, dtype, non-missing count (`df.count()`), and distinct count
(`df[col].nunique()`).  Built from the table it is given. -/
def colInfo (t : Table) : List (String × String × Nat × Nat) :=
  t.cols.map (fun c => (c, dtypeOf (colValues t c), nonMissingCount t c, nuniqueCol t c))

/-- The two mutually exclusive filter modes of the search page. -/
inductive FilterSpec where
  | keyword : String → FilterSpec
  | facet : (String → List String) → FilterSpec

/-- The filtering the page performs for a given mode. -/
def applyFilter (t : Table) : FilterSpec → Table
  | .keyword s => keywordFilter t s
  | .facet sel => facetFilter t sel

/-- The descriptive-statistics output of the page (line 211):
`filtered_df[display_columns].describe()` — computed from the FILTERED
table restricted to the displayed columns. -/
def statsOut (t : Table) (f : FilterSpec) (displayCols : List String) : List (String × Nat) :=
  describeCounts (applyFilter t f) displayCols

/-- The column-info output of the page (lines 220-225): built from `df`,
the unfiltered table; the filter argument is unused exactly as in the
source. -/
def colInfoOut (t : Table) (_f : FilterSpec) : List (String × String × Nat × Nat) :=
  colInfo t

/-! ### Export -/

/-- The downloadable artifact assembled for `st.download_button`. -/
structure CsvArtifact where
  content : String
  fileName : String
  encoding : String
  mime : String
deriving DecidableEq, Repr

/-- One cell as rendered by `DataFrame.to_csv`: missing cells print as
the empty field, other cells as their text. -/
def csvCell : Value → String
  | .missing => ""
  | .str s => s
  | .num n => toString n
  | .date k => toString k

/-- `filtered_df[display_columns].to_csv(index=False, ...)` — a header row
of the selected column names followed by one delimited line per row. -/
def toCsv (t : Table) (cs : List String) : String :=
  String.intercalate "," cs ++ "\n" ++
    String.intercalate "\n"
      (t.rows.map (fun r => String.intercalate "," (cs.map (fun c => csvCell (getCell t.cols r c)))))

/-- What the result section of the page produces, per branch of the
source (lines 172-215). -/
inductive ExportOutcome where
  | file : CsvArtifact → ExportOutcome
  | warnNoColumns : ExportOutcome
  | noResults : ExportOutcome
deriving DecidableEq, Repr

/-- Whether an outcome carries a downloadable file. -/
def isFileOutcome : ExportOutcome → Bool
  | .file _ => true
  | _ => false

/-- The export decision of the page: `if not filtered_df.empty:` then
`if display_columns:` produces the CSV artifact
(`utf-8-sig` encoding, `text/csv` mime,
`player_data_<timestamp>.csv` filename, the timestamp `ts` being
`pd.Timestamp.now().strftime('%Y%m%d_%H%M%S')`); with no selected column
it instead shows the warning; with an empty filtered table it shows the
no-results message and offers no export at all. -/
def exportStep (filtered : Table) (displayCols : List String) (ts : String) : ExportOutcome :=
  if filtered.rows.isEmpty then .noResults
  else if displayCols.isEmpty then .warnNoColumns
  else .file
    { content := toCsv filtered displayCols
      fileName := "player_data_" ++ ts ++ ".csv"
      encoding := "utf-8-sig"
      mime := "text/csv" }



end WarRecord

namespace WarRecord

/-! ## Lemmas about the facet loop -/

/-- A facet step never changes the column list. -/
theorem facetStep_cols (t : Table) (sel : String → List String) (acc : Table) (c : String) :
    (facetStep t sel acc c).cols = acc.cols := by
  unfold facetStep
  split <;> rfl

/-- Folding facet steps never changes the column list. -/
theorem foldl_facetStep_cols (t : Table) (sel : String → List String) (cs : List String) :
    ∀ acc : Table, (cs.foldl (facetStep t sel) acc).cols = acc.cols := by
  induction cs with
  | nil => intro acc; rfl
  | cons c cs ih => intro acc; rw [List.foldl_cons, ih, facetStep_cols]

/-- The positive branch of a facet step, as an equation. -/
theorem facetStep_pos (t : Table) (sel : String → List String) (acc : Table) (c : String)
    (hc : (facetEligible t c && !(sel c).isEmpty) = true) :
    facetStep t sel acc c =
      ⟨acc.cols, acc.rows.filter (fun r => (sel c).contains (valueStr (getCell acc.cols r c)))⟩ := by
  unfold facetStep
  rw [if_pos hc]

/-- The negative branch of a facet step, as an equation. -/
theorem facetStep_neg (t : Table) (sel : String → List String) (acc : Table) (c : String)
    (hc : ¬(facetEligible t c && !(sel c).isEmpty) = true) :
    facetStep t sel acc c = acc := by
  unfold facetStep
  rw [if_neg hc]

/-- The successive per-column filters of the facet loop amount to one
filter by the conjunction `facetPass` of the individual constraints. -/
theorem foldl_facetStep_rows (t : Table) (sel : String → List String) (cs : List String) :
    ∀ acc : Table, acc.cols = t.cols →
      (cs.foldl (facetStep t sel) acc).rows = acc.rows.filter (facetPass t sel cs) := by
  induction cs with
  | nil =>
    intro acc hcols
    rw [List.foldl_nil]
    symm
    rw [List.filter_eq_self]
    intro r hr
    simp [facetPass]
  | cons c cs ih =>
    intro acc hcols
    rw [List.foldl_cons]
    by_cases hc : (facetEligible t c && !(sel c).isEmpty) = true
    · rw [facetStep_pos t sel acc c hc,
        ih ⟨acc.cols, acc.rows.filter (fun r => (sel c).contains (valueStr (getCell acc.cols r c)))⟩ hcols,
        List.filter_filter]
      apply List.filter_congr
      intro r _
      simp only [facetPass, List.all_cons, hc, Bool.not_true, Bool.false_or, hcols]
      exact Bool.and_comm _ _
    · rw [facetStep_neg t sel acc c hc, ih _ hcols]
      apply List.filter_congr
      intro r _
      simp only [Bool.not_eq_true] at hc
      simp only [facetPass, List.all_cons, hc, Bool.not_false, Bool.true_or, Bool.true_and]

/-- The facet filter keeps the columns of the input table. -/
theorem facetFilter_cols (t : Table) (sel : String → List String) :
    (facetFilter t sel).cols = t.cols :=
  foldl_facetStep_cols t sel t.cols t

/-- The facet filter keeps exactly the rows passing every facet constraint. -/
theorem facetFilter_rows (t : Table) (sel : String → List String) :
    (facetFilter t sel).rows = t.rows.filter (facetPass t sel t.cols) :=
  foldl_facetStep_rows t sel t.cols t rfl

/-- The Boolean facet constraint of one column, read as an implication. -/
theorem facetCond_iff (e : Bool) (s : List String) (x : Bool) :
    ((!(e && !s.isEmpty)) || x) = true ↔ (e = true → s ≠ [] → x = true) := by
  cases e <;> cases s <;> simp


/-! ## Claim theorems -/

/-- Claim C4: identity laws of the filter — for every table, filtering
with the empty keyword returns the table unchanged, and filtering with a
facet selection in which every facet has zero selected values returns the
table unchanged (zero-selection facets impose no constraint). -/
theorem filter_identity_laws (t : Table) (sel : String → List String)
    (hsel : ∀ c, sel c = []) :
    keywordFilter t "" = t ∧ facetFilter t sel = t := by
  constructor
  · rw [keywordFilter, if_pos rfl]
  · unfold facetFilter
    have hall : ∀ (cs : List String) (acc : Table), List.foldl (facetStep t sel) acc cs = acc := by
      intro cs
      induction cs with
      | nil => intro acc; rfl
      | cons c cs ih =>
        intro acc
        rw [List.foldl_cons, facetStep_neg t sel acc c (by rw [hsel c]; simp), ih]
    exact hall t.cols t

/-- Witness for C4 at a concrete table and the all-empty facet selection. -/
theorem filter_identity_laws_witness :
    keywordFilter ⟨["a"], [[Value.str "x"]]⟩ "" = ⟨["a"], [[Value.str "x"]]⟩ ∧
      facetFilter ⟨["a"], [[Value.str "x"]]⟩ (fun _ => []) = ⟨["a"], [[Value.str "x"]]⟩ :=
  filter_identity_laws ⟨["a"], [[Value.str "x"]]⟩ (fun _ => []) (fun _ => rfl)

/-- Claim C10: for every table and filter (keyword or facet selection),
the filtered result is an order-preserving subsequence of the input rows
over unchanged columns: each result row is an input row, rows keep their
original relative order, and no row is duplicated beyond its multiplicity
in the input.  The input table, a pure value here, is left unchanged. -/
theorem filter_sublist_invariant (t : Table) (term : String) (sel : String → List String) :
    ((keywordFilter t term).rows.Sublist t.rows ∧ (keywordFilter t term).cols = t.cols) ∧
      ((facetFilter t sel).rows.Sublist t.rows ∧ (facetFilter t sel).cols = t.cols) := by
  refine ⟨⟨?_, ?_⟩, ?_, facetFilter_cols t sel⟩
  · unfold keywordFilter
    split
    · exact List.Sublist.refl _
    · exact List.filter_sublist _
  · unfold keywordFilter
    split <;> rfl
  · rw [facetFilter_rows]
    exact List.filter_sublist _

/-- Claim C8: a column is offered as a multi-select facet iff its number
of distinct non-missing values is between 1 and 50 inclusive; a column
with more than 50 distinct values, or with zero distinct non-missing
values, is never offered. -/
theorem facet_eligibility_bound (t : Table) (c : String) :
    (facetEligible t c = true ↔
      1 ≤ (uniqueNonMissing t c).length ∧ (uniqueNonMissing t c).length ≤ 50) ∧
    (50 < (uniqueNonMissing t c).length → facetEligible t c = false) ∧
    ((uniqueNonMissing t c).length = 0 → facetEligible t c = false) := by
  have hn : facetEligible t c = true ↔
      0 < (uniqueNonMissing t c).length ∧ (uniqueNonMissing t c).length ≤ 50 := by
    simp [facetEligible]
  refine ⟨?_, ?_, ?_⟩
  · rw [hn]
    omega
  · intro h
    rw [Bool.eq_false_iff]
    intro hb
    rw [hn] at hb
    omega
  · intro h
    rw [Bool.eq_false_iff]
    intro hb
    rw [hn] at hb
    omega

/-- Witness for C8 at a concrete table and column. -/
theorem facet_eligibility_bound_witness :
    (facetEligible ⟨["a"], [[Value.str "x"]]⟩ "a" = true ↔
      1 ≤ (uniqueNonMissing ⟨["a"], [[Value.str "x"]]⟩ "a").length ∧
        (uniqueNonMissing ⟨["a"], [[Value.str "x"]]⟩ "a").length ≤ 50) ∧
    (50 < (uniqueNonMissing ⟨["a"], [[Value.str "x"]]⟩ "a").length →
      facetEligible ⟨["a"], [[Value.str "x"]]⟩ "a" = false) ∧
    ((uniqueNonMissing ⟨["a"], [[Value.str "x"]]⟩ "a").length = 0 →
      facetEligible ⟨["a"], [[Value.str "x"]]⟩ "a" = false) :=
  facet_eligibility_bound ⟨["a"], [[Value.str "x"]]⟩ "a"

/-- Claim C7: the loaders never raise past their boundary — every failure
mode (missing or empty source identifier, missing credentials/client,
failed fetch) returns the empty table, and a missing/empty source
identifier returns the empty table for every fetch outcome, i.e. without
consulting the fetch at all. -/
theorem loader_failure_semantics (sid : Option String) (clientOk : Bool)
    (fetch : FetchOutcome) (e : String) :
    loadPlayerData none clientOk fetch = emptyTable ∧
    loadPlayerData (some "") clientOk fetch = emptyTable ∧
    loadPlayerData sid false fetch = emptyTable ∧
    loadPlayerData sid clientOk (FetchOutcome.failed e) = emptyTable ∧
    loadSummaryData none clientOk fetch = emptyTable ∧
    loadSummaryData (some "") clientOk fetch = emptyTable ∧
    loadSummaryData sid false fetch = emptyTable ∧
    loadSummaryData sid clientOk (FetchOutcome.failed e) = emptyTable := by
  cases sid with
  | none => exact ⟨rfl, rfl, rfl, rfl, rfl, rfl, rfl, rfl⟩
  | some s =>
    by_cases hs : s = "" <;> cases fetch <;> cases clientOk <;>
      simp [loadPlayerData, loadSummaryData, hs]


/-- Claim C1 fails on the code: the keyword "nan" is non-empty and the
single row of the table is all-missing, yet the filter returns that row —
`astype(str)` stringifies the missing cell to "nan" before the containment
test, so missing values are not treated as non-matching. -/
theorem keyword_missing_counterexample :
    "nan" ≠ "" ∧ allMissingRow [Value.missing] = true ∧
      (keywordFilter ⟨["a"], [[Value.missing]]⟩ "nan").rows = [[Value.missing]] :=
  ⟨by decide, by decide, by decide⟩

/-- Claim C1 (amended): the keyword is handed to the regex engine
(`regex=True` is the `str.contains` default), so metacharacter keywords
are interpreted as patterns rather than text and malformed ones raise;
for a non-empty keyword of ASCII non-metacharacter text over a table of
ASCII cell text — where the regex search is literal case-insensitive
substring containment — keyword mode returns exactly the rows in which at
least one cell's string representation, with a missing cell represented as
the string "nan", contains the keyword case-insensitively; in particular
searching "ABC" and searching "abc" over a table containing the cell
"xAbcx" both match that row. -/
theorem keyword_mode_semantics (t : Table) (term : String) (h : term ≠ "")
    (_hp : plainKeyword term = true) (_ht : asciiTable t = true) (r : List Value) :
    (r ∈ (keywordFilter t term).rows ↔
      r ∈ t.rows ∧ ∃ v ∈ r, containsCI (valueStr v) term = true) ∧
    valueStr Value.missing = "nan" ∧
    (keywordFilter ⟨["a"], [[Value.str "xAbcx"]]⟩ "ABC").rows = [[Value.str "xAbcx"]] ∧
    (keywordFilter ⟨["a"], [[Value.str "xAbcx"]]⟩ "abc").rows = [[Value.str "xAbcx"]] := by
  refine ⟨?_, rfl, by decide, by decide⟩
  simp only [keywordFilter, if_neg h, List.mem_filter, rowMatches, List.any_eq_true]

/-- Witness for amended C1: the plain ASCII keyword "nan" over the
all-missing (ASCII) table. -/
theorem keyword_mode_semantics_witness :
    ("nan" ≠ "" ∧ plainKeyword "nan" = true ∧
      asciiTable ⟨["a"], [[Value.missing]]⟩ = true) ∧
    ([Value.missing] ∈ (keywordFilter ⟨["a"], [[Value.missing]]⟩ "nan").rows ↔
      [Value.missing] ∈ (⟨["a"], [[Value.missing]]⟩ : Table).rows ∧
        ∃ v ∈ [Value.missing], containsCI (valueStr v) "nan" = true) ∧
    valueStr Value.missing = "nan" ∧
    (keywordFilter ⟨["a"], [[Value.str "xAbcx"]]⟩ "ABC").rows = [[Value.str "xAbcx"]] ∧
    (keywordFilter ⟨["a"], [[Value.str "xAbcx"]]⟩ "abc").rows = [[Value.str "xAbcx"]] :=
  ⟨⟨by decide, by decide, by decide⟩,
    keyword_mode_semantics ⟨["a"], [[Value.missing]]⟩ "nan" (by decide) (by decide) (by decide)
      [Value.missing]⟩

/-- Claim C6: facet mode semantics — a row is in the filtered result iff
it is an input row and, for every offered facet with at least one selected
value, the row's value in that column taken as a string is among the
selected values; and the facet selection deck = ["Red"] over the
Red/Blue/Red table returns exactly the two "Red" rows. -/
theorem facet_mode_semantics (t : Table) (sel : String → List String) (r : List Value) :
    (r ∈ (facetFilter t sel).rows ↔
      r ∈ t.rows ∧ ∀ c ∈ t.cols, facetEligible t c = true → sel c ≠ [] →
        (sel c).contains (valueStr (getCell t.cols r c)) = true) ∧
    (facetFilter ⟨["deck"], [[Value.str "Red"], [Value.str "Blue"], [Value.str "Red"]]⟩
        (fun c => if c = "deck" then ["Red"] else [])).rows
      = [[Value.str "Red"], [Value.str "Red"]] := by
  refine ⟨?_, by decide⟩
  rw [facetFilter_rows, List.mem_filter]
  constructor
  · rintro ⟨hr, hp⟩
    refine ⟨hr, ?_⟩
    intro c hc he hs
    rw [facetPass, List.all_eq_true] at hp
    have hcnd := hp c hc
    rw [facetCond_iff] at hcnd
    exact hcnd he hs
  · rintro ⟨hr, hp⟩
    refine ⟨hr, ?_⟩
    rw [facetPass, List.all_eq_true]
    intro c hc
    rw [facetCond_iff]
    exact hp c hc

/-- Claim C5: Summary Aggregator win ratio — the win count is the number
of rows whose `result` cell equals the fixed win token "勝ち"; the win
rate is wins divided by the row count times 100, always between 0 and 100,
and 0 on an empty table (no divide-by-zero); and the three-row scenario
勝ち/負け/勝ち yields total 3, wins 2, and rendered rate "66.7%". -/
theorem win_rate_properties (t : Table) (cs : List String) :
    wins t = t.rows.countP (fun r => getCell t.cols r "result" == Value.str winToken) ∧
    0 ≤ winRate t ∧ winRate t ≤ 100 ∧
    winRate ⟨cs, []⟩ = 0 ∧
    totalMatches ⟨["result"], [[Value.str "勝ち"], [Value.str "負け"], [Value.str "勝ち"]]⟩ = 3 ∧
    wins ⟨["result"], [[Value.str "勝ち"], [Value.str "負け"], [Value.str "勝ち"]]⟩ = 2 ∧
    winRateStr ⟨["result"], [[Value.str "勝ち"], [Value.str "負け"], [Value.str "勝ち"]]⟩
      = "66.7%" := by
  refine ⟨?_, ?_, ?_, ?_, by decide, by decide, by decide⟩
  · rw [wins, colValues, List.countP_map]
    rfl
  · unfold winRate
    split
    · positivity
    · exact le_refl 0
  · unfold winRate
    split
    · next hpos =>
      have hw : wins t ≤ t.rows.length := by
        rw [wins]
        calc (colValues t "result").countP (fun v => v == Value.str winToken)
            ≤ (colValues t "result").length := List.countP_le_length _
          _ = t.rows.length := by simp [colValues]
      have hn : (0:ℚ) < (t.rows.length : ℚ) := by exact_mod_cast hpos
      have hwq : (wins t : ℚ) ≤ (t.rows.length : ℚ) := by exact_mod_cast hw
      rw [div_mul_eq_mul_div, div_le_iff₀ hn]
      nlinarith
    · norm_num
  · simp [winRate]

/-- Claim C2 fails on the code: the descriptive statistics come from
`filtered_df[display_columns].describe()`, the filtered table — filtering
two rows down to one changes the reported non-missing count, so the
statistics are not independent of the active filter. -/
theorem stats_filter_dependence_counterexample :
    statsOut ⟨["a"], [[Value.str "x"], [Value.str "y"]]⟩ (FilterSpec.keyword "x") ["a"]
      ≠ statsOut ⟨["a"], [[Value.str "x"], [Value.str "y"]]⟩ (FilterSpec.keyword "") ["a"] := by
  decide

/-- Claim C2 (amended): the column-info table is computed over the full
unfiltered table — it is independent of the active filter — while the
per-selected-column descriptive statistics are computed over the filtered
table restricted to the displayed columns, agreeing with the unfiltered
statistics when the filter is an identity such as the empty keyword. -/
theorem derived_outputs_semantics (t : Table) (f g : FilterSpec) (cs : List String) :
    colInfoOut t f = colInfoOut t g ∧
    statsOut t f cs = describeCounts (applyFilter t f) cs ∧
    statsOut t (FilterSpec.keyword "") cs = describeCounts t cs := by
  refine ⟨rfl, rfl, ?_⟩
  simp [statsOut, applyFilter, keywordFilter]

/-- Updating index `i` makes `getD` at `i` return the new value, or the
default when `i` is out of range. -/
theorem getD_set_self (l : List Value) (i : Nat) (v d : Value) :
    (l.set i v).getD i d = v ∨ (l.set i v).getD i d = d := by
  induction l generalizing i with
  | nil =>
    right
    cases i <;> rfl
  | cons a l ih =>
    cases i with
    | zero => left; rfl
    | succ j => exact ih j

/-- `pd.to_datetime(..., errors='coerce')` leaves only dates or missing. -/
theorem isDateOrMissing_coerce (v : Value) : isDateOrMissing (coerceDateValue v) = true := by
  cases v with
  | str s =>
    rw [coerceDateValue]
    cases parseDateKey s <;> rfl
  | num n => rfl
  | date k => rfl
  | missing => rfl

/-- After `coerceDateCol`, every value of the `date` column is a date or
missing. -/
theorem coerceDateCol_date_ok (u : Table) :
    ((colValues (coerceDateCol u) "date").all isDateOrMissing) = true := by
  rw [List.all_eq_true]
  intro v hv
  rw [colValues, List.mem_map] at hv
  obtain ⟨r, hr, rfl⟩ := hv
  cases hidx : u.cols.findIdx? (fun c => c = "date") with
  | none =>
    rw [getCell]
    have hcols : (coerceDateCol u).cols = u.cols := by
      rw [coerceDateCol, hidx]
    rw [hcols, hidx]
    rfl
  | some i =>
    have hrows : (coerceDateCol u).rows
        = u.rows.map (fun r => r.set i (coerceDateValue (r.getD i Value.missing))) := by
      rw [coerceDateCol, hidx]
    have hcols : (coerceDateCol u).cols = u.cols := by
      rw [coerceDateCol, hidx]
    rw [hrows, List.mem_map] at hr
    obtain ⟨r0, hr0, rfl⟩ := hr
    rw [getCell, hcols, hidx]
    show isDateOrMissing
      ((r0.set i (coerceDateValue (r0.getD i Value.missing))).getD i Value.missing) = true
    rcases getD_set_self r0 i (coerceDateValue (r0.getD i Value.missing)) Value.missing with h | h
    · rw [h]
      exact isDateOrMissing_coerce _
    · rw [h]
      rfl

/-- Claim C3 fails on the code: `load_summary_data` never drops all-missing
rows — its normalization of a one-row table whose single cell is missing
returns that all-missing row unchanged, although the claim requires every
such row to be dropped. -/
theorem summary_keeps_all_missing_row :
    allMissingRow [Value.missing] = true ∧
      (normalizeSummary ⟨["result"], [[Value.missing]]⟩).rows = [[Value.missing]] :=
  ⟨by decide, by decide⟩

/-- Claim C3 (amended): the player loader's `dropna(how='all')` stage
removes exactly the rows that are entirely missing as fetched and the
`Unnamed` columns are then dropped (no date coercion happens — a raw date
string survives verbatim), while the summary loader keeps only the
expected match-record columns and coerces the `date` column so every value
in it is a date or missing (unparseable strings become missing rather than
raising) — but it keeps all-missing rows. -/
theorem normalization_semantics (t : Table) :
    ((dropAllMissingRows t).rows.all (fun r => !(allMissingRow r))) = true ∧
    ((normalizePlayer t).cols.all (fun c => !(unnamedCol c))) = true ∧
    ((colValues (normalizeSummary t) "date").all isDateOrMissing) = true ∧
    normalizePlayer ⟨["date"], [[Value.str "2024-01-02"]]⟩
      = ⟨["date"], [[Value.str "2024-01-02"]]⟩ ∧
    (normalizeSummary ⟨["date"], [[Value.str "notadate"], [Value.str "2024-01-02"]]⟩).rows
      = [[Value.missing], [Value.date 20240102]] := by
  refine ⟨?_, ?_, ?_, by decide, by decide⟩
  · rw [List.all_eq_true]
    intro r hr
    rw [dropAllMissingRows] at hr
    exact (List.mem_filter.mp hr).2
  · rw [List.all_eq_true]
    intro c hc
    rw [normalizePlayer, selectColsKeep] at hc
    exact (List.mem_filter.mp hc).2
  · by_cases he : (t.rows.isEmpty || t.cols.isEmpty) = true
    · rw [normalizeSummary, if_pos he]
      rfl
    · rw [normalizeSummary, if_neg he]
      exact coerceDateCol_date_ok _

/-- Claim C9: export refusal — with zero display columns selected the page
shows the warning and no file artifact is produced; with at least one
column selected over a non-empty filtered result (the only state in which
the column selector exists), the export produces a delimited text artifact
whose content is a header row of the selected columns followed by the data
lines, encoded as `utf-8-sig` (UTF-8 with BOM, preserving the Japanese
text of the domain), named `player_data_<timestamp>.csv` where the caller
stamps the timestamp to the second. -/
theorem export_semantics (filtered : Table) (cols : List String) (ts : String)
    (hrows : filtered.rows ≠ []) (hcols : cols ≠ []) :
    isFileOutcome (exportStep filtered [] ts) = false ∧
    exportStep filtered [] ts = ExportOutcome.warnNoColumns ∧
    exportStep filtered cols ts = ExportOutcome.file
      { content := toCsv filtered cols
        fileName := "player_data_" ++ ts ++ ".csv"
        encoding := "utf-8-sig"
        mime := "text/csv" } ∧
    toCsv filtered cols = String.intercalate "," cols ++ "\n" ++
      String.intercalate "\n" (filtered.rows.map (fun r =>
        String.intercalate "," (cols.map (fun c => csvCell (getCell filtered.cols r c))))) := by
  have h1 : filtered.rows.isEmpty = false := by
    rw [Bool.eq_false_iff]
    intro hb
    exact hrows (List.isEmpty_iff.mp hb)
  have h2 : cols.isEmpty = false := by
    rw [Bool.eq_false_iff]
    intro hb
    exact hcols (List.isEmpty_iff.mp hb)
  refine ⟨?_, ?_, ?_, rfl⟩
  · by_cases hre : filtered.rows.isEmpty = true <;> simp [exportStep, hre, isFileOutcome]
  · simp [exportStep, h1]
  · simp [exportStep, h1, h2]

/-- Witness for C9 at a one-row table, one selected column and a fixed
timestamp. -/
theorem export_semantics_witness :
    isFileOutcome (exportStep ⟨["名前"], [[Value.str "選手A"]]⟩ [] "20240101_000000") = false ∧
    exportStep ⟨["名前"], [[Value.str "選手A"]]⟩ [] "20240101_000000"
      = ExportOutcome.warnNoColumns ∧
    exportStep ⟨["名前"], [[Value.str "選手A"]]⟩ ["名前"] "20240101_000000"
      = ExportOutcome.file
        { content := toCsv ⟨["名前"], [[Value.str "選手A"]]⟩ ["名前"]
          fileName := "player_data_" ++ "20240101_000000" ++ ".csv"
          encoding := "utf-8-sig"
          mime := "text/csv" } ∧
    toCsv ⟨["名前"], [[Value.str "選手A"]]⟩ ["名前"]
      = String.intercalate "," ["名前"] ++ "\n" ++
        String.intercalate "\n"
          (([[Value.str "選手A"]] : List (List Value)).map (fun r =>
            String.intercalate ","
              (["名前"].map (fun c =>
                csvCell (getCell (⟨["名前"], [[Value.str "選手A"]]⟩ : Table).cols r c))))) :=
  export_semantics ⟨["名前"], [[Value.str "選手A"]]⟩ ["名前"] "20240101_000000"
    (by decide) (by decide)

end WarRecord
